import Mathlib

/-!
Shallow embedding of the WhatsApp multi-session gateway server
(Express application over whatsapp-web.js, single source file).

The embedding models:
- the global mutable maps (clients, qrTimers) as association lists with
  JS-Map semantics (set replaces, delete removes, at most one entry per key);
- the filesystem as a set of existing paths (List String);
- asynchronous setTimeout calls as a list of scheduled tasks;
- the express handlers for POST /registerwhatsapp, POST /sendmsg,
  GET /status/:phone and DELETE /sessiondelete/:phone as pure state
  transformers returning a response value;
- the whatsapp-web.js client handle abstractly: an id plus the authInfo
  flag the source reads (client.authInfo), set by the external library
  upon authentication;
- handleMessageEvent as a pure function from an inbound message to the
  normalized webhook payload plus its file-write side effects;
- fetchRegisteredPhones as a recursion over per-attempt outcomes.
-/

namespace WhatsAppNode

/-- A character kept by the JS sanitization regex replace
of the source, which drops every character outside a-zA-Z0-9_- . -/
def keepChar (c : Char) : Bool :=
  (('a' ≤ c && c ≤ 'z') || ('A' ≤ c && c ≤ 'Z') ||
   ('0' ≤ c && c ≤ '9') || c = '_' || c = '-')

/-- phoneNumber.replace(Regex, Empty) from the source: keep only
alphanumerics, underscore and hyphen. -/
def sanitizePhone (s : String) : String :=
  String.mk (s.data.filter keepChar)

/-- getSessionPath from the source: path under AUTH_DIR keyed by the
sanitized client id. -/
def getSessionPath (phoneNumber : String) : String :=
  ".wwebjs_auth/session-" ++ sanitizePhone phoneNumber

/-- getCachePath from the source: path under CACHE_DIR keyed by the
sanitized client id. -/
def getCachePath (phoneNumber : String) : String :=
  ".wwebjs_cache/cache-" ++ sanitizePhone phoneNumber

/-- Abstract whatsapp-web.js client handle: a fresh id identifying the
underlying object, and the authInfo field the source reads. -/
structure Client where
  cid : Nat
  authInfo : Bool
  deriving DecidableEq, Repr

/-- JS Map of phone number to client handle, as an association list in
insertion order. -/
abbrev Registry := List (String × Client)

/-- Map.has -/
def mapHas (m : Registry) (k : String) : Bool :=
  m.any (fun e => e.1 = k)

/-- Map.get -/
def mapGet (m : Registry) (k : String) : Option Client :=
  (m.find? (fun e => e.1 = k)).map (fun e => e.2)

/-- Map.delete -/
def mapDelete (m : Registry) (k : String) : Registry :=
  m.filter (fun e => e.1 ≠ k)

/-- Map.set: replaces any existing entry for the key. -/
def mapSet (m : Registry) (k : String) (v : Client) : Registry :=
  mapDelete m k ++ [(k, v)]

/-- Number of live entries a registry holds for one key. -/
def countKey (m : Registry) (k : String) : Nat :=
  (m.filter (fun e => e.1 = k)).length

/-- A task scheduled through setTimeout in the source. -/
inductive Sched where
  /-- setTimeout wrapping createSession(phone, lineId, headersSent). -/
  | createSession (phone : String) (delayMs : Nat)
  /-- setTimeout wrapping initializeClient(phone, lineId). -/
  | initializeClient (phone : String) (delayMs : Nat)
  deriving DecidableEq, Repr

/-- The mutable state of the server process: the clients map, the
qrTimers map (keys only; the timer handle is opaque), the set of
existing filesystem paths, the pending setTimeout tasks, the ids of
destroyed client handles, and the fresh-id counter for new clients. -/
structure ServerState where
  clients : Registry
  qrTimers : List String
  fsPaths : List String
  scheduled : List Sched
  destroyed : List Nat
  nextId : Nat
  deriving DecidableEq, Repr

/-- The empty starting state of the process. -/
def initialState : ServerState :=
  { clients := [], qrTimers := [], fsPaths := [], scheduled := [],
    destroyed := [], nextId := 0 }

/-- clearQrTimer from the source: cancel and remove the timer for the
phone if one is registered. -/
def clearQrTimer (st : ServerState) (phoneNumber : String) : ServerState :=
  { st with qrTimers := st.qrTimers.filter (fun p => p ≠ phoneNumber) }

/-- createSession from the source, up to its synchronous effects: a new
client handle is constructed and stored in the clients map under the raw
phone number; event handlers are registered on it and initialize is
started (its asynchronous completion is outside this step). -/
def createSession (st : ServerState) (phoneNumber : String) : ServerState :=
  { st with
    clients := mapSet st.clients phoneNumber ⟨st.nextId, false⟩,
    nextId := st.nextId + 1 }

/-- Outcome of the POST /registerwhatsapp handler that is decided
synchronously: 400 on a missing phone, 200 connected when a session or a
persisted session directory already exists, or the pairing path where the
response is deferred to the qr or ready or auth_failure event. -/
inductive RegisterResult where
  | badRequest (code : Nat) (status message : String)
  | connected (code : Nat) (status message phone : String) (lineId : Option String)
  | pairingStarted
  deriving DecidableEq, Repr

/-- POST /registerwhatsapp from the source. The phone field of the JSON
body is an Option; JS truthiness makes the empty string count as missing. -/
def registerHandler (st : ServerState) (phone : Option String)
    (lineId : Option String) : RegisterResult × ServerState :=
  match phone with
  | none => (.badRequest 400 "error" "Phone number is required", st)
  | some p =>
    if p = "" then
      (.badRequest 400 "error" "Phone number is required", st)
    else if mapHas st.clients p || (getSessionPath p ∈ st.fsPaths : Bool) then
      (.connected 200 "connected" "Сесія вже існує або активна" p lineId, st)
    else
      (.pairingStarted, createSession st p)

/-- Response of GET /status/:phone. -/
structure StatusResponse where
  code : Nat
  status : String
  phone : String
  isAuthenticated : Bool
  deriving DecidableEq, Repr

/-- GET /status/:phone from the source: the path parameter is sanitized,
then looked up in the clients map; connected plus isAuthenticated true
exactly when a client is present and its authInfo is set. -/
def statusHandler (st : ServerState) (rawPhone : String) : StatusResponse :=
  let phone := sanitizePhone rawPhone
  match mapGet st.clients phone with
  | some c =>
    if c.authInfo then
      { code := 200, status := "connected", phone := phone, isAuthenticated := true }
    else
      { code := 200, status := "disconnected", phone := phone, isAuthenticated := false }
  | none =>
    { code := 200, status := "disconnected", phone := phone, isAuthenticated := false }

/-- The external library authenticating a client: the authenticated and
ready events fire, the source clears the QR timer, and the library sets
authInfo on the client stored for the phone. -/
def authenticateClient (st : ServerState) (phoneNumber : String) : ServerState :=
  let st := clearQrTimer st phoneNumber
  { st with
    clients := st.clients.map (fun e =>
      if e.1 = phoneNumber then (e.1, { e.2 with authInfo := true }) else e) }

/-- The QR timer expiring for a session, from handleQrEvent in the
source: when the client has not authenticated, destroy the handle,
remove the registry entry, cancel the QR timer, and schedule a
createSession for the same phone 30 seconds later; when it has
authenticated, do nothing. -/
def qrTimeoutHandler (st : ServerState) (phoneNumber : String)
    (client : Client) : ServerState :=
  if !client.authInfo then
    let st1 : ServerState :=
      { st with destroyed := st.destroyed ++ [client.cid],
                clients := mapDelete st.clients phoneNumber }
    let st2 := clearQrTimer st1 phoneNumber
    { st2 with scheduled := st2.scheduled ++ [.createSession phoneNumber 30000] }
  else st

/-- The qr event firing, from handleQrEvent in the source: the QR image
is sent as the response and a 30 second timer is stored in qrTimers. -/
def startQrTimer (st : ServerState) (phoneNumber : String) : ServerState :=
  { st with qrTimers := st.qrTimers.filter (fun p => p ≠ phoneNumber) ++ [phoneNumber] }

/-- Response of DELETE /sessiondelete/:phone on the non-error path. -/
structure DeleteResponse where
  code : Nat
  status : String
  phone : String
  message : String
  deriving DecidableEq, Repr

/-- The destroy-and-evict step of DELETE /sessiondelete/:phone: when a
client is stored for the phone, destroy it, drop the registry entry and
cancel its QR timer; otherwise do nothing. -/
def evictClient (st : ServerState) (phone : String) : ServerState :=
  match mapGet st.clients phone with
  | some c =>
    clearQrTimer
      { st with destroyed := st.destroyed ++ [c.cid],
                clients := mapDelete st.clients phone } phone
  | none => st

/-- One existsSync-guarded removeSync block of the source: remove the
path from the filesystem when it exists. -/
def removePathIfExists (st : ServerState) (p : String) : ServerState :=
  if (p ∈ st.fsPaths : Bool) then
    { st with fsPaths := st.fsPaths.filter (fun q => q ≠ p) }
  else st

/-- DELETE /sessiondelete/:phone from the source: sanitize the path
parameter, destroy and evict any live client under the sanitized key and
cancel its QR timer, then remove the session directory and the cache
directory when they exist, and answer 200 deleted unconditionally. -/
def deleteHandler (st : ServerState) (rawPhone : String) :
    DeleteResponse × ServerState :=
  let phone := sanitizePhone rawPhone
  let st1 := evictClient st phone
  let st2 := removePathIfExists st1 (getSessionPath phone)
  let st3 := removePathIfExists st2 (getCachePath phone)
  ({ code := 200, status := "deleted", phone := phone,
     message := "Сесія успішно видалена" }, st3)

/-- Request body of POST /sendmsg; empty strings model absent fields,
contentType defaults to text in the destructuring. -/
structure SendRequest where
  from_ : String
  to_ : String
  message : String
  contentType : String := "text"
  filePath : String := ""
  bitrixMessageId : String := ""
  deriving DecidableEq, Repr

/-- A message actually handed to the underlying client by /sendmsg. -/
inductive SendEffect where
  | text (chatId body : String)
  | media (chatId contentType filePath caption : String)
  deriving DecidableEq, Repr

/-- Synchronous outcome of POST /sendmsg. -/
inductive SendResult where
  | badRequest (code : Nat) (message : String)
  | notConnected (code : Nat) (message : String)
  | sent (code : Nat) (messageId bitrixMessageId : String)
  deriving DecidableEq, Repr

/-- POST /sendmsg from the source. providerId is the id assigned by the
underlying client for the sent message (with the empty string falsy, as
in sentMessage?.id?.id), randomHex the crypto.randomBytes fallback. -/
def sendmsgHandler (st : ServerState) (req : SendRequest)
    (providerId : Option String) (randomHex : String) :
    SendResult × ServerState × List SendEffect :=
  if req.from_ = "" || req.to_ = "" || req.message = "" then
    (.badRequest 400 "Необхідні параметри: from, to, message", st, [])
  else
    match mapGet st.clients req.from_ with
    | none =>
      (.notConnected 404 "Клієнт не підключений",
       { st with scheduled := st.scheduled ++ [.createSession req.from_ 30000] },
       [])
    | some _ =>
      let chatId := req.to_ ++ "@c.us"
      let messageId :=
        match providerId with
        | some s => if s = "" then randomHex else s
        | none => randomHex
      if req.contentType = "text" then
        (.sent 200 messageId req.bitrixMessageId, st,
         [.text chatId req.message])
      else if req.filePath ≠ "" then
        if (req.filePath ∈ st.fsPaths : Bool) then
          (.sent 200 messageId req.bitrixMessageId, st,
           [.media chatId req.contentType req.filePath req.message])
        else
          (.badRequest 400 ("Файл не знайдено: " ++ req.filePath), st, [])
      else
        (.badRequest 400 ("Непідтримуваний contentType: " ++ req.contentType),
         st, [])

/-- The JS String.prototype.endsWith test on the character lists of the
two strings. -/
def jsEndsWith (s pat : String) : Bool :=
  s.data.drop (s.data.length - pat.data.length) = pat.data &&
    pat.data.length ≤ s.data.length

/-- Strip pat from the front of a character list when it is a prefix. -/
def dropPat : List Char → List Char → Option (List Char)
  | [], l => some l
  | _ :: _, [] => none
  | p :: ps, c :: cs => if c = p then dropPat ps cs else none

/-- Remove the first occurrence of a pattern from a character list. -/
def removeFirstOcc : List Char → List Char → List Char
  | [], _ => []
  | c :: cs, pat =>
    match dropPat pat (c :: cs) with
    | some rest => rest
    | none => c :: removeFirstOcc cs pat

/-- Remove the first occurrence of pat from s, as the JS
String.replace with a plain-string pattern and empty replacement. -/
def replaceFirst (s pat : String) : String :=
  if pat = "" then s else String.mk (removeFirstOcc s.data pat.data)

/-- Result of message.downloadMedia when it succeeds: the decoded byte
length of the base64 data and the declared mimetype (empty when falsy). -/
structure MediaDownload where
  dataBytes : Nat
  mimetype : String := ""
  deriving DecidableEq, Repr

/-- A raw inbound whatsapp-web.js message as handleMessageEvent reads
it; empty strings model absent or falsy fields. -/
structure WAMessage where
  from_ : String
  to_ : String
  idId : String
  idRemote : String := ""
  timestamp : Nat
  type : String
  body : String := ""
  filename : String := ""
  caption : String := ""
  reaction : String := ""
  downloadMedia : Option MediaDownload := none
  deriving DecidableEq, Repr

/-- The media object attached to the normalized payload. -/
structure MediaData where
  id : String
  mimeType : String
  caption : String
  filename : String
  deriving DecidableEq, Repr

/-- messages zero of the webhook payload. The computed property
bracket-type colon-mediaData of the object literal adds a property named
after the raw type; when type is the literal string text it overwrites
the text property with mediaData (null there), which the text field of
none records. -/
structure PayloadMessage where
  id : String
  from_ : String
  timestamp : Nat
  type : String
  text : Option String
  typeField : Option MediaData
  deriving DecidableEq, Repr

/-- The canonical webhook payload: entry zero, changes zero, value. -/
structure Payload where
  message : PayloadMessage
  phoneNumberId : String
  deriving DecidableEq, Repr

/-- Outcome of handleMessageEvent: webhook POST attempts performed, media
files written as path and decoded size pairs, and directories ensured. -/
structure MessageResult where
  posts : List Payload
  fileWrites : List (String × Nat)
  dirsCreated : List String
  deriving DecidableEq, Repr

/-- The media-like branch labels of the switch in handleMessageEvent. -/
def isMediaType (t : String) : Bool :=
  t = "image" || t = "video" || t = "audio" || t = "document" || t = "sticker"

/-- The fixed oversized-file notice of the source. -/
def oversizedNotice : String := "занадто великий файл. не вдалося відправити"

/-- The 16 MiB limit against which the decoded byte size is compared;
the source computes bytes over 1024 times 1024 as an exact binary float
and compares with 16, equivalent to this byte bound. -/
def sizeLimitBytes : Nat := 16 * 1024 * 1024

/-- The fallback extension table of the source keyed by declared type. -/
def fallbackMime (t : String) : String :=
  t ++ "/" ++
    (if t = "sticker" then "webp"
     else if t = "audio" then "ogg"
     else if t = "video" then "mp4"
     else "jpg")

/-- mimeType.split slash index one with fallback unknown. -/
def mimeExt (mime : String) : String :=
  match (mime.splitOn "/").drop 1 with
  | [] => "unknown"
  | e :: _ => if e = "" then "unknown" else e

/-- The per-phone inbound media directory of the source. -/
def filesDirectory (phoneNumber : String) : String :=
  "whatsapp_" ++ sanitizePhone phoneNumber ++ "/files"

/-- handleMessageEvent from the source: filter out non-individual chats
and self-echoes, normalize the accepted event by type (verbatim text,
media download with the 16 MiB size policy and file persistence,
reaction and unknown fallbacks), build the canonical payload, and POST
it once to the webhook. -/
def handleMessageEvent (msg : WAMessage) (phoneNumber : String) :
    MessageResult :=
  if !(jsEndsWith msg.from_ "@c.us") || !(jsEndsWith msg.to_ "@c.us") then
    { posts := [], fileWrites := [], dirsCreated := [] }
  else if msg.from_ = phoneNumber ++ "@c.us" then
    { posts := [], fileWrites := [], dirsCreated := [] }
  else
    let fromPhone := replaceFirst msg.from_ "@c.us"
    let t := msg.type
    let r : String × Option MediaData × List (String × Nat) × List String :=
      if t = "chat" || t = "text" then
        (msg.body, none, [], [])
      else if isMediaType t then
        match msg.downloadMedia with
        | some media =>
          let dir := filesDirectory phoneNumber
          if media.dataBytes > sizeLimitBytes then
            (oversizedNotice, none, [], [dir])
          else
            let mimeType :=
              if media.mimetype = "" then fallbackMime t else media.mimetype
            let filename :=
              if msg.filename = "" then t ++ "_" ++ msg.idId ++ "." ++ mimeExt mimeType
              else msg.filename
            let filePath := dir ++ "/" ++ filename
            ((if msg.body = "" then t else msg.body),
             some { id := msg.idId, mimeType := mimeType,
                    caption := msg.caption, filename := filePath },
             [(filePath, media.dataBytes)], [dir])
        | none => (t ++ " (не вдалося завантажити)", none, [], [])
      else if t = "reaction" then
        ("Реакція: " ++ msg.reaction ++ " на повідомлення " ++ msg.idRemote,
         none, [], [])
      else
        ("Невідомий тип: " ++ t, none, [], [])
    let payload : Payload :=
      { message :=
          { id := msg.idId, from_ := fromPhone, timestamp := msg.timestamp,
            type := t,
            text := if t = "text" then none else some r.1,
            typeField := r.2.1 },
        phoneNumberId := phoneNumber }
    { posts := [payload], fileWrites := r.2.2.1, dirsCreated := r.2.2.2 }

/-- One entry of the backend RegisteredPhones list. -/
structure RegisteredPhone where
  phoneNumber : String
  lineId : String := ""
  deriving DecidableEq, Repr

/-- What one fetch attempt observes: err covers a network error, a
non-ok HTTP status and a 204, all of which throw in the source. -/
inductive FetchOutcome where
  | err
  | ok (data : List RegisteredPhone)
  deriving DecidableEq, Repr

/-- The retry loop of fetchRegisteredPhones, indexed by the current
attempt number; returns the resulting list and the number of attempts
performed. On err at the last attempt it returns the empty list; the
fall-through return after the loop is only reachable with maxRetries
zero. -/
def fetchGo (outcomes : Nat → FetchOutcome) (maxRetries attempt : Nat) :
    List RegisteredPhone × Nat :=
  if h : attempt > maxRetries then ([], attempt - 1)
  else
    match outcomes attempt with
    | .ok data => ((if data.isEmpty then [] else data), attempt)
    | .err =>
      if attempt = maxRetries then ([], attempt)
      else fetchGo outcomes maxRetries (attempt + 1)
termination_by maxRetries + 1 - attempt
decreasing_by omega

/-- fetchRegisteredPhones from the source with its default maxRetries of
five: attempts start at one. -/
def fetchRegisteredPhones (outcomes : Nat → FetchOutcome)
    (maxRetries : Nat := 5) : List RegisteredPhone × Nat :=
  fetchGo outcomes maxRetries 1

/-- The per-phone loop of initializeRegisteredSessions: for each
registered phone whose session directory exists a client is created and
stored under the raw phone number; phones without one are skipped. -/
def initializeRegisteredSessions (st : ServerState) :
    List RegisteredPhone → ServerState
  | [] => st
  | rp :: rest =>
    let st1 :=
      if (getSessionPath (sanitizePhone rp.phoneNumber) ∈ st.fsPaths : Bool) then
        { st with
          clients := mapSet st.clients rp.phoneNumber ⟨st.nextId, false⟩,
          nextId := st.nextId + 1 }
      else st
    initializeRegisteredSessions st1 rest

/-- The startup sequence: fetch the registered phones with the default
retry policy, then initialize a session for each fetched phone that has
persisted credentials. -/
def bootstrapStartup (outcomes : Nat → FetchOutcome) (st : ServerState) :
    ServerState :=
  initializeRegisteredSessions st (fetchRegisteredPhones outcomes).1

/-! Helper lemmas about the JS-Map model. -/

theorem mapGet_eq_none_of_not_has (m : Registry) (k : String)
    (h : mapHas m k = false) : mapGet m k = none := by
  induction m with
  | nil => rfl
  | cons e rest ih =>
    simp only [mapHas, List.any_cons, Bool.or_eq_false_iff] at h
    obtain ⟨h1, h2⟩ := h
    have h1p : ¬ (e.1 = k) := by simpa using h1
    simpa [mapGet, List.find?_cons, h1p] using ih h2

theorem mapGet_mapDelete_self (m : Registry) (k : String) :
    mapGet (mapDelete m k) k = none := by
  induction m with
  | nil => rfl
  | cons e rest ih =>
    by_cases h : e.1 = k
    · simpa [mapDelete, List.filter_cons, h] using ih
    · simp [mapGet, mapDelete, List.filter_cons, List.find?_cons, h] at ih ⊢

theorem mapHas_mapDelete_self (m : Registry) (k : String) :
    mapHas (mapDelete m k) k = false := by
  induction m with
  | nil => rfl
  | cons e rest ih =>
    by_cases h : e.1 = k
    · simpa [mapDelete, List.filter_cons, h] using ih
    · simp [mapHas, mapDelete, List.filter_cons, List.any_cons, h] at ih ⊢

theorem countKey_append (l1 l2 : Registry) (k : String) :
    countKey (l1 ++ l2) k = countKey l1 k + countKey l2 k := by
  simp [countKey, List.filter_append]

theorem countKey_mapDelete_self (m : Registry) (k : String) :
    countKey (mapDelete m k) k = 0 := by
  induction m with
  | nil => rfl
  | cons e rest ih =>
    by_cases h : e.1 = k
    · simp [countKey, mapDelete, List.filter_cons, h] at ih ⊢
    · simp [countKey, mapDelete, List.filter_cons, h] at ih ⊢

theorem countKey_mapDelete_le (m : Registry) (k q : String) :
    countKey (mapDelete m k) q ≤ countKey m q :=
  List.Sublist.length_le (List.Sublist.filter _ (List.filter_sublist m))

theorem countKey_mapSet_le (m : Registry) (k : String) (v : Client)
    (q : String) (h : countKey m q ≤ 1) :
    countKey (mapSet m k v) q ≤ 1 := by
  rw [mapSet, countKey_append]
  by_cases hq : q = k
  · subst hq
    rw [countKey_mapDelete_self]
    simp [countKey]
  · have h1 := countKey_mapDelete_le m k q
    have hz : countKey [(k, v)] q = 0 := by
      simp [countKey, List.filter_cons, Ne.symm hq]
    omega

/-- C9: every GET /status/:phone response couples its two fields
perfectly: it is either status connected with isAuthenticated true, or
status disconnected with isAuthenticated false; no other combination is
reachable. -/
theorem status_fields_coupled (st : ServerState) (raw : String) :
    ((statusHandler st raw).status = "connected" ∧
      (statusHandler st raw).isAuthenticated = true) ∨
    ((statusHandler st raw).status = "disconnected" ∧
      (statusHandler st raw).isAuthenticated = false) := by
  unfold statusHandler
  cases h : mapGet st.clients (sanitizePhone raw) with
  | none => right; simp [h]
  | some c =>
    by_cases hc : c.authInfo = true
    · left; simp [h, hc]
    · right; simp [h, hc]

/-- C10: a POST /registerwhatsapp for a phone with no live session whose
persisted session directory exists on disk answers 200 connected and
changes nothing: no session is created and no pairing is started. -/
theorem register_connected_from_disk (st : ServerState) (p : String)
    (lineId : Option String) (h1 : mapHas st.clients p = false)
    (h2 : getSessionPath p ∈ st.fsPaths) (h3 : p ≠ "") :
    registerHandler st (some p) lineId =
      (RegisterResult.connected 200 "connected" "Сесія вже існує або активна"
        p lineId, st) := by
  simp [registerHandler, h1, h2, h3]

/-- Witness for C10 at a concrete state holding only the on-disk
session directory for the phone abc. -/
theorem register_connected_from_disk_witness :
    registerHandler ⟨[], [], [getSessionPath "abc"], [], [], 0⟩ (some "abc") none =
      (RegisterResult.connected 200 "connected" "Сесія вже існує або активна"
        "abc" none, ⟨[], [], [getSessionPath "abc"], [], [], 0⟩) :=
  register_connected_from_disk ⟨[], [], [getSessionPath "abc"], [], [], 0⟩
    "abc" none rfl (by simp) (by decide)

/-- C7: POST /sendmsg with all required fields present but no session
for the from phone answers 404 client-not-connected, hands nothing to
the underlying client, leaves the registry untouched, and schedules
exactly one createSession for the from phone 30 seconds later. -/
theorem sendmsg_not_connected (st : ServerState) (req : SendRequest)
    (providerId : Option String) (randomHex : String)
    (h1 : req.from_ ≠ "") (h2 : req.to_ ≠ "") (h3 : req.message ≠ "")
    (h4 : mapGet st.clients req.from_ = none) :
    sendmsgHandler st req providerId randomHex =
      (SendResult.notConnected 404 "Клієнт не підключений",
       { st with scheduled := st.scheduled ++ [Sched.createSession req.from_ 30000] },
       []) := by
  simp [sendmsgHandler, h1, h2, h3, h4]

/-- Witness for C7 on the empty state with a concrete request. -/
theorem sendmsg_not_connected_witness :
    sendmsgHandler initialState ⟨"111", "222", "hi", "text", "", ""⟩ none "r" =
      (SendResult.notConnected 404 "Клієнт не підключений",
       { initialState with scheduled := [Sched.createSession "111" 30000] },
       []) := by
  have h := sendmsg_not_connected initialState ⟨"111", "222", "hi", "text", "", ""⟩
    none "r" (by decide) (by decide) (by decide) rfl
  simpa [initialState] using h

/-- C2: the QR timer firing for a session whose client has not
authenticated destroys the client handle, removes the phone from the
registry, cancels the QR timer, and appends exactly one scheduled
createSession for the same phone with a 30 second delay. -/
theorem qr_timeout_recovery (st : ServerState) (phone : String)
    (client : Client) (h : client.authInfo = false) :
    qrTimeoutHandler st phone client =
      { st with
          clients := mapDelete st.clients phone,
          qrTimers := st.qrTimers.filter (fun p => p ≠ phone),
          destroyed := st.destroyed ++ [client.cid],
          scheduled := st.scheduled ++ [Sched.createSession phone 30000] } ∧
    mapHas (qrTimeoutHandler st phone client).clients phone = false := by
  constructor
  · simp [qrTimeoutHandler, h, clearQrTimer]
  · simp [qrTimeoutHandler, h, clearQrTimer, mapHas_mapDelete_self]

/-- Witness for C2 on a concrete one-session state. -/
theorem qr_timeout_recovery_witness :
    qrTimeoutHandler ⟨[("p", ⟨0, false⟩)], ["p"], [], [], [], 1⟩ "p" ⟨0, false⟩ =
      ⟨[], [], [], [Sched.createSession "p" 30000], [0], 1⟩ := by
  have h := (qr_timeout_recovery ⟨[("p", ⟨0, false⟩)], ["p"], [], [], [], 1⟩
    "p" ⟨0, false⟩ rfl).1
  rw [h]
  rfl

/-- C1: the clients registry holds at most one live entry per phone
after any POST /registerwhatsapp call that started from a valid
registry, and a call for a phone that already has a live session
answers 200 connected and leaves the whole state, the registry entry
included, unchanged. -/
theorem registry_at_most_one_and_register_noop (st : ServerState)
    (phone : Option String) (lineId : Option String)
    (hv : ∀ q, countKey st.clients q ≤ 1) :
    (∀ q, countKey (registerHandler st phone lineId).2.clients q ≤ 1) ∧
    (∀ p, phone = some p → p ≠ "" → mapHas st.clients p = true →
      (registerHandler st phone lineId).1 =
        RegisterResult.connected 200 "connected" "Сесія вже існує або активна"
          p lineId ∧
      (registerHandler st phone lineId).2 = st) := by
  constructor
  · intro q
    match phone with
    | none => simpa [registerHandler] using hv q
    | some p =>
      by_cases hp : p = ""
      · simpa [registerHandler, hp] using hv q
      · by_cases hc :
          (mapHas st.clients p || decide (getSessionPath p ∈ st.fsPaths)) = true
        · simpa [registerHandler, hp, hc] using hv q
        · simp only [registerHandler, hp, hc, if_false, if_neg, createSession]
          simpa using countKey_mapSet_le st.clients p ⟨st.nextId, false⟩ q (hv q)
  · rintro p rfl hne hhas
    simp [registerHandler, hne, hhas]

/-- Witness for C1 on a one-session state, registering the same phone
again. -/
theorem registry_at_most_one_witness :
    countKey (registerHandler ⟨[("p", ⟨0, false⟩)], [], [], [], [], 1⟩
      (some "p") none).2.clients "p" ≤ 1 ∧
    (registerHandler ⟨[("p", ⟨0, false⟩)], [], [], [], [], 1⟩ (some "p") none).1 =
      RegisterResult.connected 200 "connected" "Сесія вже існує або активна"
        "p" none ∧
    (registerHandler ⟨[("p", ⟨0, false⟩)], [], [], [], [], 1⟩ (some "p") none).2 =
      ⟨[("p", ⟨0, false⟩)], [], [], [], [], 1⟩ := by
  have hv : ∀ q, countKey [(("p" : String), (⟨0, false⟩ : Client))] q ≤ 1 := by
    intro q
    simp only [countKey, List.filter_cons, List.filter_nil]
    split <;> simp
  have h := registry_at_most_one_and_register_noop
    ⟨[("p", ⟨0, false⟩)], [], [], [], [], 1⟩ (some "p") none hv
  exact ⟨h.1 "p", (h.2 "p" rfl (by decide) rfl).1, (h.2 "p" rfl (by decide) rfl).2⟩

/-! Helper facts for the DELETE /sessiondelete idempotence claim. -/

theorem not_mem_filter_ne_self (l : List String) (a : String) :
    a ∉ l.filter (fun p => p ≠ a) := by
  intro hm
  have := (List.mem_filter.mp hm).2
  simp at this

theorem not_mem_filter_of_not_mem (l : List String) (p : String → Bool)
    (a : String) (h : a ∉ l) : a ∉ l.filter p :=
  fun hm => h (List.mem_filter.mp hm).1

theorem removePathIfExists_clients (st : ServerState) (p : String) :
    (removePathIfExists st p).clients = st.clients := by
  unfold removePathIfExists
  split <;> rfl

theorem not_mem_removePathIfExists_self (st : ServerState) (p : String) :
    p ∉ (removePathIfExists st p).fsPaths := by
  unfold removePathIfExists
  split
  · exact not_mem_filter_ne_self st.fsPaths p
  · intro hm
    simp_all

theorem not_mem_removePathIfExists (st : ServerState) (p q : String)
    (h : q ∉ st.fsPaths) : q ∉ (removePathIfExists st p).fsPaths := by
  unfold removePathIfExists
  split
  · exact not_mem_filter_of_not_mem st.fsPaths _ q h
  · exact h

theorem removePathIfExists_noop (st : ServerState) (p : String)
    (h : p ∉ st.fsPaths) : removePathIfExists st p = st := by
  simp [removePathIfExists, h]

theorem evictClient_get_none (st : ServerState) (phone : String) :
    mapGet (evictClient st phone).clients phone = none := by
  unfold evictClient
  cases hc : mapGet st.clients phone with
  | none => exact hc
  | some c => simpa [clearQrTimer] using mapGet_mapDelete_self st.clients phone

theorem evictClient_fsPaths (st : ServerState) (phone : String) :
    (evictClient st phone).fsPaths = st.fsPaths := by
  unfold evictClient
  cases mapGet st.clients phone <;> rfl

theorem evictClient_noop (st : ServerState) (phone : String)
    (h : mapGet st.clients phone = none) : evictClient st phone = st := by
  simp [evictClient, h]

theorem deleteHandler_resp (st : ServerState) (raw : String) :
    (deleteHandler st raw).1 =
      ⟨200, "deleted", sanitizePhone raw, "Сесія успішно видалена"⟩ := rfl

theorem deleteHandler_noop (st : ServerState) (raw : String)
    (h1 : mapGet st.clients (sanitizePhone raw) = none)
    (h2 : getSessionPath (sanitizePhone raw) ∉ st.fsPaths)
    (h3 : getCachePath (sanitizePhone raw) ∉ st.fsPaths) :
    deleteHandler st raw =
      (⟨200, "deleted", sanitizePhone raw, "Сесія успішно видалена"⟩, st) := by
  show (_, removePathIfExists (removePathIfExists (evictClient _ _) _) _) = _
  rw [evictClient_noop st _ h1, removePathIfExists_noop st _ h2,
    removePathIfExists_noop st _ h3]

theorem deleteHandler_gone (st : ServerState) (raw : String) :
    mapGet (deleteHandler st raw).2.clients (sanitizePhone raw) = none ∧
    getSessionPath (sanitizePhone raw) ∉ (deleteHandler st raw).2.fsPaths ∧
    getCachePath (sanitizePhone raw) ∉ (deleteHandler st raw).2.fsPaths := by
  refine ⟨?_, ?_, ?_⟩
  · show mapGet (removePathIfExists (removePathIfExists _ _) _).clients _ = none
    rw [removePathIfExists_clients, removePathIfExists_clients]
    exact evictClient_get_none st (sanitizePhone raw)
  · exact not_mem_removePathIfExists _ _ _
      (not_mem_removePathIfExists_self _ _)
  · exact not_mem_removePathIfExists_self _ _

/-- C8: DELETE /sessiondelete/:phone is idempotent: with no live session
and no persisted directories it changes nothing and still answers 200
deleted, and running the handler twice in a row gives the same response
and the same final state as running it once. -/
theorem sessiondelete_idempotent (st : ServerState) (raw : String)
    (h1 : mapHas st.clients (sanitizePhone raw) = false)
    (h2 : getSessionPath (sanitizePhone raw) ∉ st.fsPaths)
    (h3 : getCachePath (sanitizePhone raw) ∉ st.fsPaths) :
    deleteHandler st raw =
      (⟨200, "deleted", sanitizePhone raw, "Сесія успішно видалена"⟩, st) ∧
    ∀ st2 raw2, deleteHandler (deleteHandler st2 raw2).2 raw2 =
      deleteHandler st2 raw2 := by
  refine ⟨deleteHandler_noop st raw
    (mapGet_eq_none_of_not_has _ _ h1) h2 h3, ?_⟩
  intro st2 raw2
  obtain ⟨g1, g2, g3⟩ := deleteHandler_gone st2 raw2
  rw [deleteHandler_noop _ raw2 g1 g2 g3, ← deleteHandler_resp st2 raw2]

/-- Witness for C8 on the empty state. -/
theorem sessiondelete_idempotent_witness :
    deleteHandler initialState "x" =
      (⟨200, "deleted", sanitizePhone "x", "Сесія успішно видалена"⟩,
        initialState) ∧
    deleteHandler (deleteHandler initialState "x").2 "x" =
      deleteHandler initialState "x" := by
  have h := sessiondelete_idempotent initialState "x" rfl
    (by simp [initialState]) (by simp [initialState])
  exact ⟨h.1, h.2 initialState "x"⟩

theorem fetchGo_all_err (outcomes : Nat → FetchOutcome)
    (hfail : ∀ i, outcomes i = FetchOutcome.err) (maxRetries : Nat) :
    ∀ d attempt, maxRetries - attempt = d → 1 ≤ attempt →
      attempt ≤ maxRetries →
      fetchGo outcomes maxRetries attempt = ([], maxRetries) := by
  intro d
  induction d with
  | zero =>
    intro attempt hd h1 h2
    have he : attempt = maxRetries := by omega
    subst he
    unfold fetchGo
    simp [hfail]
  | succ n ih =>
    intro attempt hd h1 h2
    have hlt : attempt < maxRetries := by omega
    unfold fetchGo
    rw [dif_neg (by omega)]
    simp only [hfail]
    rw [if_neg (by omega)]
    exact ih (attempt + 1) (by omega) (by omega) (by omega)

/-- C5: when every fetch attempt fails, fetchRegisteredPhones performs
exactly maxRetries attempts (five with the default), returns the empty
list as a value rather than raising, and the startup sequence built on
it leaves the state unchanged: no bootstrap session is created. -/
theorem fetch_retries_exhaust (outcomes : Nat → FetchOutcome)
    (maxRetries : Nat) (st : ServerState) (h1 : 1 ≤ maxRetries)
    (hfail : ∀ i, outcomes i = FetchOutcome.err) :
    fetchRegisteredPhones outcomes maxRetries = ([], maxRetries) ∧
    fetchRegisteredPhones outcomes = ([], 5) ∧
    bootstrapStartup outcomes st = st := by
  have hm : fetchGo outcomes maxRetries 1 = ([], maxRetries) :=
    fetchGo_all_err outcomes hfail maxRetries (maxRetries - 1) 1 rfl
      (le_refl 1) h1
  have h5 : fetchGo outcomes 5 1 = ([], 5) :=
    fetchGo_all_err outcomes hfail 5 4 1 rfl (le_refl 1) (by omega)
  refine ⟨hm, h5, ?_⟩
  unfold bootstrapStartup fetchRegisteredPhones
  rw [h5]
  rfl

/-- Witness for C5 with the always-failing outcome function and the
default retry count. -/
theorem fetch_retries_exhaust_witness :
    fetchRegisteredPhones (fun _ => FetchOutcome.err) = ([], 5) ∧
    bootstrapStartup (fun _ => FetchOutcome.err) initialState =
      initialState := by
  have h := fetch_retries_exhaust (fun _ => FetchOutcome.err) 5 initialState
    (by omega) (fun i => rfl)
  exact ⟨h.2.1, h.2.2⟩

/-- C6: an inbound chat-type message from a foreign individual contact
is forwarded as exactly one webhook POST whose text body is the message
body verbatim and whose metadata phone number id is the phone of the
owning session. -/
theorem inbound_text_single_post (msg : WAMessage) (phone : String)
    (h1 : msg.type = "chat")
    (h2 : jsEndsWith msg.from_ "@c.us" = true)
    (h3 : jsEndsWith msg.to_ "@c.us" = true)
    (h4 : msg.from_ ≠ phone ++ "@c.us") :
    (handleMessageEvent msg phone).posts =
      [{ message := { id := msg.idId, from_ := replaceFirst msg.from_ "@c.us",
                      timestamp := msg.timestamp, type := msg.type,
                      text := some msg.body, typeField := none },
         phoneNumberId := phone }] := by
  simp [handleMessageEvent, h1, h2, h3, h4]

/-- Witness for C6: the text hello from contact 111 to the session
owning phone 222. -/
theorem inbound_text_single_post_witness :
    (handleMessageEvent
      ⟨"111@c.us", "222@c.us", "m1", "", 5, "chat", "hello", "", "", "", none⟩
      "222").posts =
      [{ message := { id := "m1", from_ := "111", timestamp := 5,
                      type := "chat", text := some "hello", typeField := none },
         phoneNumberId := "222" }] := by
  have h := inbound_text_single_post
    ⟨"111@c.us", "222@c.us", "m1", "", 5, "chat", "hello", "", "", "", none⟩
    "222" rfl (by decide) (by decide) (by decide)
  rw [h]
  rfl

/-- C3: an accepted inbound media message whose decoded size exceeds
16 MiB writes no media file, carries the fixed oversized-file notice as
its text, attaches no media object, and is still forwarded as exactly
one webhook POST. -/
theorem oversized_media_fallback (msg : WAMessage) (phone : String)
    (media : MediaDownload)
    (h1 : isMediaType msg.type = true)
    (h2 : jsEndsWith msg.from_ "@c.us" = true)
    (h3 : jsEndsWith msg.to_ "@c.us" = true)
    (h4 : msg.from_ ≠ phone ++ "@c.us")
    (h5 : msg.downloadMedia = some media)
    (h6 : media.dataBytes > sizeLimitBytes) :
    (handleMessageEvent msg phone).fileWrites = [] ∧
    (handleMessageEvent msg phone).posts =
      [{ message := { id := msg.idId, from_ := replaceFirst msg.from_ "@c.us",
                      timestamp := msg.timestamp, type := msg.type,
                      text := some oversizedNotice, typeField := none },
         phoneNumberId := phone }] := by
  have ht : msg.type ≠ "chat" ∧ msg.type ≠ "text" := by
    simp only [isMediaType, Bool.or_eq_true, decide_eq_true_eq] at h1
    constructor <;> intro hh <;> rw [hh] at h1 <;> simp at h1
  constructor <;>
    simp [handleMessageEvent, h1, h2, h3, h4, h5, h6, ht.1, ht.2]

/-- Witness for C3: an image of 16 MiB plus one byte from contact 111 to
the session owning phone 222. -/
theorem oversized_media_fallback_witness :
    (handleMessageEvent
      ⟨"111@c.us", "222@c.us", "m1", "", 5, "image", "", "", "", "",
        some ⟨16777217, ""⟩⟩ "222").fileWrites = [] ∧
    (handleMessageEvent
      ⟨"111@c.us", "222@c.us", "m1", "", 5, "image", "", "", "", "",
        some ⟨16777217, ""⟩⟩ "222").posts =
      [{ message := { id := "m1", from_ := "111", timestamp := 5,
                      type := "image", text := some oversizedNotice,
                      typeField := none },
         phoneNumberId := "222" }] := by
  have h := oversized_media_fallback
    ⟨"111@c.us", "222@c.us", "m1", "", 5, "image", "", "", "", "",
      some ⟨16777217, ""⟩⟩ "222" ⟨16777217, ""⟩
    (by decide) (by decide) (by decide) (by decide) rfl (by decide)
  refine ⟨h.1, ?_⟩
  rw [h.2]
  rfl

/-- C4: evaluation of the register-authenticate-status flow at the
phone plus-1555 of the spec. Registration stores the session under the
raw phone and authentication marks it, yet GET /status sanitizes its
path parameter before the registry lookup, so the very phone that was
just registered and authenticated is reported disconnected with
isAuthenticated false. -/
theorem status_key_mismatch_bug :
    mapGet (authenticateClient
      (startQrTimer
        (registerHandler initialState (some "+15551234567") (some "7")).2
        "+15551234567")
      "+15551234567").clients "+15551234567" = some ⟨0, true⟩ ∧
    statusHandler (authenticateClient
      (startQrTimer
        (registerHandler initialState (some "+15551234567") (some "7")).2
        "+15551234567")
      "+15551234567") "+15551234567" =
      { code := 200, status := "disconnected", phone := "15551234567",
        isAuthenticated := false } := by
  constructor <;> rfl

end WhatsAppNode
